import Mathlib

/-!
# Green Travel Planner — verification of the core logic

Shallow embedding of `src/main.py` (a small Flask application).

Modelling choices:
* A Python `dict` built by literal insertion is an association list
  `List (String × ℚ)`; iteration order is list order (Python dicts preserve
  insertion order).
* Python floats are modelled as exact rationals `ℚ`.
* `random.uniform a b` draws from a process-wide random source, modelled as a
  state `RngState` holding a stream of unit-interval draws; `uniform a b`
  returns `a + (b - a) * u` for the next draw `u ∈ [0,1)`.
* Python exceptions are modelled with `Option` (for `min` on an empty
  sequence) and `Except String` (for the handler body, where the exception's
  `str` is the carried message).
* The Flask request/response cycle is modelled by a `Request` record and a
  `Response` record (a rendered `Page` plus an HTTP status); `render_template`
  with a default status yields status 200.
-/

/-- HTTP method of a request. -/
inductive Method
  | GET
  | POST
deriving DecidableEq

/-- An incoming HTTP request: its method and its form fields
(`request.form` is a multi-dict; `.get` returns the first value bound to a
key, or `None`). -/
structure Request where
  method : Method
  form : List (String × String)

/-- The pages `render_template` can produce in `main.py`:
the bare form (`index.html` with no result section), the form with a result
section (`index.html` with `start`, `end`, `optimal_mode`, `emissions`), or
the error page (`error.html` with `error_message`). -/
inductive Page
  | indexForm
  | result (start stop optimal_mode : String) (emissions : List (String × ℚ))
  | errorPage (error_message : String)
deriving DecidableEq

/-- A handler's response: the rendered page and the HTTP status code. -/
structure Response where
  page : Page
  status : ℕ
deriving DecidableEq

/-- The process-wide random source: a stream of unit-interval draws and a
cursor marking how many draws have been consumed. -/
structure RngState where
  stream : ℕ → ℚ
  idx : ℕ

/-- The random source is well-formed: every draw lies in `[0,1)`,
as `random.random()` guarantees. -/
def UnitStream (s : RngState) : Prop :=
  ∀ n, 0 ≤ s.stream n ∧ s.stream n < 1

/-- `random.uniform(a, b)`: returns `a + (b - a) * u` for the next unit draw
`u`, advancing the source. -/
def random_uniform (a b : ℚ) (s : RngState) : ℚ × RngState :=
  (a + (b - a) * s.stream s.idx, ⟨s.stream, s.idx + 1⟩)

/-- `get_emissions_data(route)` from `main.py`: builds the dict
`{'car': random.uniform(100, 200), 'bike': random.uniform(5, 10),
'public_transport': random.uniform(20, 50)}`.  The `route` argument is
received but never used.  Returns the report together with the advanced
random source. -/
def get_emissions_data (route : String × String) (s : RngState) :
    List (String × ℚ) × RngState :=
  let (car, s1) := random_uniform 100 200 s
  let (bike, s2) := random_uniform 5 10 s1
  let (pt, s3) := random_uniform 20 50 s2
  let _ := route
  ([("car", car), ("bike", bike), ("public_transport", pt)], s3)

/-- Python's builtin `min(d, key=d.get)` over the entries of a dict:
fold over the remaining entries keeping the current best, replacing it only
when a strictly smaller value appears (so the first of any tied minima is
kept). -/
def min_by_value : (String × ℚ) → List (String × ℚ) → (String × ℚ)
  | best, [] => best
  | best, p :: rest => if p.2 < best.2 then min_by_value p rest else min_by_value best rest

/-- `suggest_route(emissions_data)` from `main.py`:
`min(emissions_data, key=emissions_data.get)`.  On an empty dict Python's
`min` raises `ValueError`, modelled as `none`. -/
def suggest_route : List (String × ℚ) → Option String
  | [] => none
  | p :: rest => some (min_by_value p rest).1

/-- `request.form.get(key)`: first value bound to `key`, or `None`. -/
def formGet : List (String × String) → String → Option String
  | [], _ => none
  | (k, v) :: rest, key => if k = key then some v else formGet rest key

/-- Python truthiness test `not x` for an optional string: `None` and the
empty string are falsy. -/
def isFalsy : Option String → Bool
  | none => true
  | some s => decide (s = "")

/-- The body of the `index` handler (the code inside the `try:` block).
A raised exception is an `Except.error` carrying `str(e)`. -/
def index_body (req : Request) (rng : RngState) : Except String Page :=
  match req.method with
  | Method.POST =>
    let start_location := formGet req.form "start"
    let end_location := formGet req.form "end"
    if isFalsy start_location || isFalsy end_location then
      Except.error "Start and end locations must be provided."
    else
      let s := start_location.getD ""
      let e := end_location.getD ""
      let (emissions_data, _) := get_emissions_data (s, e) rng
      match suggest_route emissions_data with
      | some optimal_mode => Except.ok (Page.result s e optimal_mode emissions_data)
      | none => Except.error "min() arg is an empty sequence"
  | Method.GET => Except.ok Page.indexForm

/-- The `index` handler: runs the body inside `try`/`except Exception`,
converting any exception into the rendered error page with the exception's
message; `render_template` responses get Flask's default status 200. -/
def index (req : Request) (rng : RngState) : Response :=
  match index_body req rng with
  | Except.ok p => { page := p, status := 200 }
  | Except.error e => { page := Page.errorPage e, status := 200 }

/-- The `@app.errorhandler(404)` handler `not_found_error`. -/
def not_found_error : Response :=
  { page := Page.errorPage "Page not found.", status := 404 }

/-- The `@app.errorhandler(500)` handler `internal_error`. -/
def internal_error : Response :=
  { page := Page.errorPage "Internal server error.", status := 500 }

/-- Flask's routing table: the only registered route is `/`; any other path
falls through to the 404 handler. -/
def app_dispatch (path : String) (req : Request) (rng : RngState) : Response :=
  if path = "/" then index req rng else not_found_error

/-! ## Helper lemmas about `min_by_value` -/

theorem min_by_value_mem (l : List (String × ℚ)) (best : String × ℚ) :
    min_by_value best l = best ∨ min_by_value best l ∈ l := by
  induction l generalizing best with
  | nil => left; rfl
  | cons p rest ih =>
    by_cases h : p.2 < best.2
    · simp only [min_by_value, if_pos h]
      rcases ih p with h1 | h1
      · right; simp [h1]
      · right; simp [h1]
    · simp only [min_by_value, if_neg h]
      rcases ih best with h1 | h1
      · left; exact h1
      · right; simp [h1]

theorem min_by_value_le (l : List (String × ℚ)) (best : String × ℚ) :
    (min_by_value best l).2 ≤ best.2 ∧ ∀ p ∈ l, (min_by_value best l).2 ≤ p.2 := by
  induction l generalizing best with
  | nil => exact ⟨le_refl _, by simp⟩
  | cons p rest ih =>
    by_cases h : p.2 < best.2
    · simp only [min_by_value, if_pos h]
      obtain ⟨h1, h2⟩ := ih p
      refine ⟨le_of_lt (lt_of_le_of_lt h1 h), ?_⟩
      intro q hq
      rcases List.mem_cons.mp hq with rfl | hq
      · exact h1
      · exact h2 q hq
    · simp only [min_by_value, if_neg h]
      obtain ⟨h1, h2⟩ := ih best
      refine ⟨h1, ?_⟩
      intro q hq
      rcases List.mem_cons.mp hq with rfl | hq
      · exact le_trans h1 (not_lt.mp h)
      · exact h2 q hq

theorem min_by_value_first (l : List (String × ℚ)) (best : String × ℚ) :
    ∃ l₁ l₂, best :: l = l₁ ++ min_by_value best l :: l₂ ∧
      ∀ q ∈ l₁, (min_by_value best l).2 < q.2 := by
  induction l generalizing best with
  | nil => exact ⟨[], [], rfl, by simp⟩
  | cons p rest ih =>
    by_cases h : p.2 < best.2
    · simp only [min_by_value, if_pos h]
      obtain ⟨l₁, l₂, heq, hlt⟩ := ih p
      refine ⟨best :: l₁, l₂, ?_, ?_⟩
      · rw [List.cons_append, ← heq]
      · intro q hq
        rcases List.mem_cons.mp hq with rfl | hq
        · exact lt_of_le_of_lt (min_by_value_le rest p).1 h
        · exact hlt q hq
    · simp only [min_by_value, if_neg h]
      obtain ⟨l₁, l₂, heq, hlt⟩ := ih best
      cases l₁ with
      | nil =>
        simp only [List.nil_append] at heq
        injection heq with h1 h2
        refine ⟨[], p :: rest, ?_, by simp⟩
        rw [List.nil_append, ← h1]
      | cons a l₁' =>
        simp only [List.cons_append] at heq
        injection heq with h1 h2
        subst h1
        refine ⟨best :: p :: l₁', l₂, ?_, ?_⟩
        · conv_lhs => rw [h2]
          simp only [List.cons_append]
        · intro q hq
          have hb : (min_by_value best rest).2 < best.2 :=
            hlt best (List.mem_cons_self best l₁')
          rcases List.mem_cons.mp hq with rfl | hq
          · exact hb
          · rcases List.mem_cons.mp hq with rfl | hq
            · exact lt_of_lt_of_le hb (not_lt.mp h)
            · exact hlt q (List.mem_cons_of_mem best hq)

/-! ## Claim theorems -/

/-- Claim C1: for every non-empty emissions report, `suggest_route` returns a
key that is present in the report, and the value associated with that key is
less than or equal to the value associated with every other key in the
report. -/
theorem suggest_route_returns_min (report : List (String × ℚ)) (h : report ≠ []) :
    ∃ p ∈ report, suggest_route report = some p.1 ∧ ∀ q ∈ report, p.2 ≤ q.2 := by
  match report, h with
  | p :: rest, _ =>
    refine ⟨min_by_value p rest, ?_, rfl, ?_⟩
    · rcases min_by_value_mem rest p with h1 | h1
      · rw [h1]; exact List.mem_cons_self p rest
      · exact List.mem_cons_of_mem p h1
    · intro q hq
      obtain ⟨h1, h2⟩ := min_by_value_le rest p
      rcases List.mem_cons.mp hq with rfl | hq
      · exact h1
      · exact h2 q hq

/-- Witness for C1 on a concrete two-entry report. -/
theorem suggest_route_returns_min_witness :
    ([(("car" : String), (3 : ℚ)), ("bike", 1)] ≠ []) ∧
    ∃ p ∈ [(("car" : String), (3 : ℚ)), ("bike", 1)],
      suggest_route [("car", 3), ("bike", 1)] = some p.1 ∧
      ∀ q ∈ [(("car" : String), (3 : ℚ)), ("bike", 1)], p.2 ≤ q.2 :=
  ⟨by simp, suggest_route_returns_min [("car", 3), ("bike", 1)] (by simp)⟩

/-- Claim C5: when several keys are tied for the exact minimum value,
`suggest_route` returns the first of them in the mapping's iteration order:
the report splits as `l₁ ++ p :: l₂` where `p` is the returned entry, every
entry before it has a strictly greater value, and `p`'s value is a minimum
of the whole report. -/
theorem suggest_route_tie_break (report : List (String × ℚ)) (h : report ≠ []) :
    ∃ l₁ p l₂, report = l₁ ++ p :: l₂ ∧ suggest_route report = some p.1 ∧
      (∀ q ∈ l₁, p.2 < q.2) ∧ ∀ q ∈ report, p.2 ≤ q.2 := by
  match report, h with
  | b :: rest, _ =>
    obtain ⟨l₁, l₂, heq, hlt⟩ := min_by_value_first rest b
    refine ⟨l₁, min_by_value b rest, l₂, heq, rfl, hlt, ?_⟩
    intro q hq
    obtain ⟨h1, h2⟩ := min_by_value_le rest b
    rcases List.mem_cons.mp hq with rfl | hq
    · exact h1
    · exact h2 q hq

/-- Witness for C5 on a report with a two-way tie: `bike` and
`public_transport` both hold the minimum 1; the first of them is returned. -/
theorem suggest_route_tie_break_witness :
    ([(("car" : String), (2 : ℚ)), ("bike", 1), ("public_transport", 1)] ≠ []) ∧
    ∃ l₁ p l₂,
      [(("car" : String), (2 : ℚ)), ("bike", 1), ("public_transport", 1)] = l₁ ++ p :: l₂ ∧
      suggest_route [("car", 2), ("bike", 1), ("public_transport", 1)] = some p.1 ∧
      (∀ q ∈ l₁, p.2 < q.2) ∧
      ∀ q ∈ [(("car" : String), (2 : ℚ)), ("bike", 1), ("public_transport", 1)], p.2 ≤ q.2 :=
  ⟨by simp, suggest_route_tie_break [("car", 2), ("bike", 1), ("public_transport", 1)] (by simp)⟩

/-- Claim C6: applied to an empty emissions report, `suggest_route` fails
(Python's `min` raises `ValueError`, modelled as `none`) rather than
returning a mode name. -/
theorem suggest_route_empty : suggest_route [] = none := rfl

/-- Claim C8: the sampler's output does not depend on its route argument:
for any two routes and the same state of the random source, the reports (and
final source states) are identical. -/
theorem get_emissions_data_ignores_route (r1 r2 : String × String) (s : RngState) :
    get_emissions_data r1 s = get_emissions_data r2 s := rfl

/-- Claim C2: for every route, with a well-formed random source,
`get_emissions_data` returns a mapping with exactly the keys `car`, `bike`,
`public_transport` in that order, with the car value in `[100,200)`, the
bike value in `[5,10)`, and the public-transport value in `[20,50)`. -/
theorem get_emissions_data_ranges (route : String × String) (s : RngState)
    (h : UnitStream s) :
    ∃ car bike pt,
      (get_emissions_data route s).1 =
        [("car", car), ("bike", bike), ("public_transport", pt)] ∧
      100 ≤ car ∧ car < 200 ∧ 5 ≤ bike ∧ bike < 10 ∧ 20 ≤ pt ∧ pt < 50 := by
  obtain ⟨h0l, h0u⟩ := h s.idx
  obtain ⟨h1l, h1u⟩ := h (s.idx + 1)
  obtain ⟨h2l, h2u⟩ := h (s.idx + 1 + 1)
  refine ⟨100 + (200 - 100) * s.stream s.idx, 5 + (10 - 5) * s.stream (s.idx + 1),
    20 + (50 - 20) * s.stream (s.idx + 1 + 1), ?_, by linarith, by linarith,
    by linarith, by linarith, by linarith, by linarith⟩
  simp only [get_emissions_data, random_uniform]

/-- Witness for C2 at the constant stream `1/2`. -/
theorem get_emissions_data_ranges_witness :
    UnitStream ⟨fun _ => 1 / 2, 0⟩ ∧
    ∃ car bike pt,
      (get_emissions_data ("A", "B") ⟨fun _ => 1 / 2, 0⟩).1 =
        [("car", car), ("bike", bike), ("public_transport", pt)] ∧
      100 ≤ car ∧ car < 200 ∧ 5 ≤ bike ∧ bike < 10 ∧ 20 ≤ pt ∧ pt < 50 :=
  ⟨fun _ => by norm_num,
   get_emissions_data_ranges ("A", "B") ⟨fun _ => 1 / 2, 0⟩ (fun _ => by norm_num)⟩

/-- Claim C3: for every POST request in which the `start` or `end` field is
empty or absent, the `index` handler produces the validation error with
exactly the message "Start and end locations must be provided.", surfaced on
the rendered error page. -/
theorem index_validation_error (req : Request) (rng : RngState)
    (hm : req.method = Method.POST)
    (h : isFalsy (formGet req.form "start") = true ∨
         isFalsy (formGet req.form "end") = true) :
    index req rng =
      { page := Page.errorPage "Start and end locations must be provided.",
        status := 200 } := by
  have hcond : (isFalsy (formGet req.form "start") ||
      isFalsy (formGet req.form "end")) = true := by
    rcases h with h | h <;> simp [h]
  unfold index index_body
  rw [hm]
  simp only [hcond, if_true]

/-- Witness for C3: a POST whose form carries only `end`. -/
theorem index_validation_error_witness :
    (Request.mk Method.POST [("end", "B")]).method = Method.POST ∧
    (isFalsy (formGet (Request.mk Method.POST [("end", "B")]).form "start") = true ∨
     isFalsy (formGet (Request.mk Method.POST [("end", "B")]).form "end") = true) ∧
    index (Request.mk Method.POST [("end", "B")]) ⟨fun _ => 0, 0⟩ =
      { page := Page.errorPage "Start and end locations must be provided.",
        status := 200 } :=
  ⟨rfl, Or.inl rfl,
   index_validation_error (Request.mk Method.POST [("end", "B")]) ⟨fun _ => 0, 0⟩
     rfl (Or.inl rfl)⟩

/-- Claim C4: every exception raised while handling a request in the `index`
handler body is caught; the handler returns the rendered error page carrying
the exception's message, with Flask's default success status 200 rather than
an error status. -/
theorem index_catches_exceptions (req : Request) (rng : RngState) (e : String)
    (h : index_body req rng = Except.error e) :
    index req rng = { page := Page.errorPage e, status := 200 } := by
  unfold index
  rw [h]

/-- Witness for C4: the validation exception on a POST with an empty form. -/
theorem index_catches_exceptions_witness :
    index_body (Request.mk Method.POST []) ⟨fun _ => 0, 0⟩ =
      Except.error "Start and end locations must be provided." ∧
    index (Request.mk Method.POST []) ⟨fun _ => 0, 0⟩ =
      { page := Page.errorPage "Start and end locations must be provided.",
        status := 200 } :=
  ⟨rfl,
   index_catches_exceptions (Request.mk Method.POST []) ⟨fun _ => 0, 0⟩
     "Start and end locations must be provided." rfl⟩

/-- Claim C7: a request for any unmatched route yields status 404 with an
error page carrying exactly "Page not found.", and the framework-level
internal-error handler yields status 500 with an error page carrying exactly
"Internal server error." -/
theorem http_error_pages :
    (∀ (path : String) (req : Request) (rng : RngState), path ≠ "/" →
      app_dispatch path req rng =
        { page := Page.errorPage "Page not found.", status := 404 }) ∧
    internal_error =
      { page := Page.errorPage "Internal server error.", status := 500 } := by
  refine ⟨?_, rfl⟩
  intro path req rng h
  simp [app_dispatch, h, not_found_error]

/-- Witness for C7 at the path "/nonexistent". -/
theorem http_error_pages_witness :
    ("/nonexistent" ≠ "/") ∧
    app_dispatch "/nonexistent" (Request.mk Method.GET []) ⟨fun _ => 0, 0⟩ =
      { page := Page.errorPage "Page not found.", status := 404 } :=
  ⟨by decide,
   http_error_pages.1 "/nonexistent" (Request.mk Method.GET []) ⟨fun _ => 0, 0⟩
     (by decide)⟩

/-- Claim C9: validation accepts any non-empty string verbatim (including
whitespace-only strings): a POST with non-empty `start` and `end` passes
validation and renders the success result page with those verbatim values,
not the validation error. -/
theorem index_accepts_nonempty (s e : String) (rng : RngState)
    (hs : s ≠ "") (he : e ≠ "") :
    ∃ m em, index (Request.mk Method.POST [("start", s), ("end", e)]) rng =
      { page := Page.result s e m em, status := 200 } := by
  have h1 : formGet [("start", s), ("end", e)] "start" = some s := by
    simp [formGet]
  have h2 : formGet [("start", s), ("end", e)] "end" = some e := by
    simp [formGet]
  have hs' : isFalsy (some s) = false := by simp [isFalsy, hs]
  have he' : isFalsy (some e) = false := by simp [isFalsy, he]
  refine ⟨(min_by_value ("car", 100 + (200 - 100) * rng.stream rng.idx)
      [("bike", 5 + (10 - 5) * rng.stream (rng.idx + 1)),
       ("public_transport", 20 + (50 - 20) * rng.stream (rng.idx + 1 + 1))]).1,
    [("car", 100 + (200 - 100) * rng.stream rng.idx),
     ("bike", 5 + (10 - 5) * rng.stream (rng.idx + 1)),
     ("public_transport", 20 + (50 - 20) * rng.stream (rng.idx + 1 + 1))], ?_⟩
  unfold index index_body
  simp only [h1, h2, hs', he', Bool.or_self, Bool.false_eq_true, if_false,
    Option.getD_some, get_emissions_data, random_uniform, suggest_route]

/-- Witness for C9: `start` and `end` both consist solely of spaces and the
result page is rendered. -/
theorem index_accepts_nonempty_witness :
    (" " ≠ "") ∧ ("  " ≠ "") ∧
    ∃ m em, index (Request.mk Method.POST [("start", " "), ("end", "  ")])
        ⟨fun _ => 0, 0⟩ =
      { page := Page.result " " "  " m em, status := 200 } :=
  ⟨by decide, by decide,
   index_accepts_nonempty " " "  " ⟨fun _ => 0, 0⟩ (by decide) (by decide)⟩

/-- Claim C10: the `index` handler is total at its boundary: for every
request and random-source state it returns a rendered page with the default
status 200, never propagating an exception (the whole body sits inside the
catch-all). -/
theorem index_total (req : Request) (rng : RngState) :
    ∃ p, index req rng = { page := p, status := 200 } := by
  unfold index
  cases index_body req rng with
  | ok p => exact ⟨p, rfl⟩
  | error e => exact ⟨Page.errorPage e, rfl⟩
